import Mathlib

/-!
Verification of the ping-pong client (src/ping-pong-client).

The client performs a six-step sequence: bind a local endpoint, initiate a
secure session, await session establishment, open a bidirectional stream,
write the payload "ping", and finish the outbound half.  Every external
operation either succeeds or fails; the embedding abstracts each such
operation by a boolean in a `World` and translates `main` from
src/ping-pong-client/src/main.rs into a pure function of the world that
records the result, the steps attempted, and the byte sequences written
to the outbound half.
-/

namespace PingPong

/-- The error enum from src/ping-pong-client/src/errors.rs, lines 6-12:
`pub enum ClientError { TimeOut, LocallyClosed, QuicError, StreamOpeningError }`.
No constructor carries a payload, exactly as in the source. -/
inductive ClientError where
  | TimeOut
  | LocallyClosed
  | QuicError
  | StreamOpeningError
  deriving DecidableEq, Repr, Fintype

/-- The six conceptual steps of the run, in the order of the spec's
sequence [bind, initiate, await, open_stream, write, finish].
`bind` is the config construction (main.rs lines 18-20), `initiate` covers
`Endpoint::client` and `endpoint.connect` (lines 24-26), `await` is
`conn.await` (line 28), `openStream` is `conn.open_bi()` (line 40),
`write` is `write_all(b"ping")` (line 45), `finish` is `finish()`
(line 47). -/
inductive Step where
  | bind
  | initiate
  | await
  | openStream
  | write
  | finish
  deriving DecidableEq, Repr, Fintype

/-- The individual external calls of main.rs, at the source's granularity:
`Endpoint::client` (line 24), `endpoint.connect` (line 25), `conn.await`
(line 28), `conn.open_bi()` (line 40), `write_all` (line 45) and `finish()`
(line 47).  The spec step `initiate` decomposes into `endpointClient`
followed by `connect`. -/
inductive Call where
  | endpointClient
  | connect
  | awaitConn
  | openBi
  | writeAll
  | finish
  deriving DecidableEq, Repr, Fintype

/-- One run's environment: whether each fallible external operation of
main.rs succeeds.  Config construction (the bind step) has no flag because
it cannot fail in the source. -/
structure World where
  endpointClientOk : Bool
  connectOk : Bool
  awaitOk : Bool
  openBiOk : Bool
  writeAllOk : Bool
  finishOk : Bool
  deriving DecidableEq, Repr, Fintype

/-- The observable outcome of a run of main: the returned
`Result<(), ClientError>`, the list of steps attempted (in order), and the
byte sequences written in full to the outbound half of the stream. -/
structure RunOutcome where
  result : Except ClientError Unit
  attempted : List Step
  calls : List Call
  writes : List (List Nat)
  deriving Repr

/-- The payload bytes `b"ping"` of main.rs line 45: ASCII p, i, n, g. -/
def pingBytes : List Nat := [112, 105, 110, 103]

/-- Translation of `main` (src/ping-pong-client/src/main.rs, lines 17-55).
Each `match` mirrors one `match` of the source; the branch order follows
the source's `Ok`/`Err` arms.

The write arm is translated faithfully: in the source, line 52
(`Err(_) => Err(ClientError::TimeOut)`) has no `return`, so the error
value is merely bound to `_res`, the `finish` call is never reached, and
control falls through to line 54's `Ok(())`. -/
def mainRun (w : World) : RunOutcome :=
  -- lines 18-22: addr and config construction, cannot fail
  -- line 24: Endpoint::client(config)
  match w.endpointClientOk with
  | false =>
    -- line 35: return Err(ClientError::QuicError)
    { result := .error .QuicError
      attempted := [.bind, .initiate]
      calls := [.endpointClient]
      writes := [] }
  | true =>
    -- lines 25-26: endpoint.connect(SocketAddr::new(HOST, PORT), LOCALHOST)
    match w.connectOk with
    | false =>
      -- line 33: return Err(ClientError::LocallyClosed)
      { result := .error .LocallyClosed
        attempted := [.bind, .initiate]
        calls := [.endpointClient, .connect]
        writes := [] }
    | true =>
      -- line 28: conn.await
      match w.awaitOk with
      | false =>
        -- line 30: return Err(ClientError::TimeOut)
        { result := .error .TimeOut
          attempted := [.bind, .initiate, .await]
          calls := [.endpointClient, .connect, .awaitConn]
          writes := [] }
      | true =>
        -- line 40: conn.open_bi().await
        match w.openBiOk with
        | false =>
          -- line 42: return Err(ClientError::StreamOpeningError)
          { result := .error .StreamOpeningError
            attempted := [.bind, .initiate, .await, .openStream]
            calls := [.endpointClient, .connect, .awaitConn, .openBi]
            writes := [] }
        | true =>
          -- line 45: stream.0.write_all(b"ping").await
          match w.writeAllOk with
          | false =>
            -- line 52: Err(ClientError::TimeOut) is bound to _res without
            -- `return`; line 54 then returns Ok(())
            { result := .ok ()
              attempted := [.bind, .initiate, .await, .openStream, .write]
              calls := [.endpointClient, .connect, .awaitConn, .openBi, .writeAll]
              writes := [] }
          | true =>
            -- line 47: stream.0.finish().await
            match w.finishOk with
            | false =>
              -- line 49: return Err(ClientError::TimeOut)
              { result := .error .TimeOut
                attempted := [.bind, .initiate, .await, .openStream, .write, .finish]
                calls := [.endpointClient, .connect, .awaitConn, .openBi, .writeAll, .finish]
                writes := [pingBytes] }
            | true =>
              -- lines 48 and 54: Ok(())
              { result := .ok ()
                attempted := [.bind, .initiate, .await, .openStream, .write, .finish]
                calls := [.endpointClient, .connect, .awaitConn, .openBi, .writeAll, .finish]
                writes := [pingBytes] }

/-- The full six-step sequence named by the spec. -/
def fullSeq : List Step := [.bind, .initiate, .await, .openStream, .write, .finish]

/-- Whether a given step succeeds in a given world.  The bind step (config
construction) cannot fail; the initiate step succeeds when both
`Endpoint::client` and `endpoint.connect` succeed. -/
def stepOk (w : World) : Step → Bool
  | .bind => true
  | .initiate => w.endpointClientOk && w.connectOk
  | .await => w.awaitOk
  | .openStream => w.openBiOk
  | .write => w.writeAllOk
  | .finish => w.finishOk

deriving instance DecidableEq for Except

/-- Claim C1: the spec states that a failed payload write and a failed
finish both terminate the run reporting `TimeOut`.  The code contradicts
this for the write half: at the run where every step up to the write
succeeds and the write fails, line 52 of main.rs builds
`Err(ClientError::TimeOut)` but binds it to `_res` instead of returning
it, so the run falls through to line 54's `Ok(())`, never calling
`finish` and reporting success. -/
theorem writeFail_run_returns_ok :
    (mainRun ⟨true, true, true, true, false, true⟩).result = Except.ok () ∧
    Call.finish ∉ (mainRun ⟨true, true, true, true, false, true⟩).calls := by
  decide

/-- Claim C2: the spec states that every step failure surfaces an error to
the top level and no run both encounters a step failure and terminates
with a success result.  The code contradicts this at the run where the
write step fails after all prior steps succeeded: the write step fails,
yet the run terminates with `Ok(())`. -/
theorem stepFailure_with_success_result :
    stepOk ⟨true, true, true, true, false, true⟩ Step.write = false ∧
    (mainRun ⟨true, true, true, true, false, true⟩).result = Except.ok () := by
  decide

/-- Claim C3: if the payload write fails after all prior steps succeeded,
main never attempts the finish call on the outbound half and returns
`Ok(())` — the process result is success even though the write failed. -/
theorem writeFail_skips_finish_and_succeeds (w : World)
    (he : w.endpointClientOk = true) (hc : w.connectOk = true)
    (ha : w.awaitOk = true) (ho : w.openBiOk = true)
    (hw : w.writeAllOk = false) :
    (mainRun w).result = Except.ok () ∧
    Call.finish ∉ (mainRun w).calls := by
  refine ⟨?_, ?_⟩ <;> (revert w; decide)

/-- Witness for claim C3 at the concrete run where only the write fails. -/
theorem writeFail_skips_finish_and_succeeds_witness :
    (mainRun ⟨true, true, true, true, false, true⟩).result = Except.ok () ∧
    Call.finish ∉ (mainRun ⟨true, true, true, true, false, true⟩).calls :=
  writeFail_skips_finish_and_succeeds ⟨true, true, true, true, false, true⟩
    rfl rfl rfl rfl rfl

/-- Claim C4: when every external operation succeeds, the run completes
with no error and exactly the 4 ASCII bytes "ping" are written to the
outbound half exactly once. -/
theorem happy_path_writes_ping_once (w : World)
    (he : w.endpointClientOk = true) (hc : w.connectOk = true)
    (ha : w.awaitOk = true) (ho : w.openBiOk = true)
    (hw : w.writeAllOk = true) (hf : w.finishOk = true) :
    (mainRun w).result = Except.ok () ∧
    (mainRun w).writes = ["ping".toList.map Char.toNat] ∧
    (mainRun w).writes.length = 1 ∧
    pingBytes.length = 4 := by
  revert w; decide

/-- Witness for claim C4 at the all-successful run. -/
theorem happy_path_writes_ping_once_witness :
    (mainRun ⟨true, true, true, true, true, true⟩).result = Except.ok () ∧
    (mainRun ⟨true, true, true, true, true, true⟩).writes
      = ["ping".toList.map Char.toNat] ∧
    (mainRun ⟨true, true, true, true, true, true⟩).writes.length = 1 ∧
    pingBytes.length = 4 :=
  happy_path_writes_ping_once ⟨true, true, true, true, true, true⟩
    rfl rfl rfl rfl rfl rfl

/-- Claim C5: if construction of the client transport context
(`Endpoint::client`, main.rs line 24) fails, the reported error kind is
`QuicError` and no later call — connect, the session wait, stream opening,
write or finish — executes. -/
theorem endpointClientFail_quicError (w : World)
    (he : w.endpointClientOk = false) :
    (mainRun w).result = Except.error ClientError.QuicError ∧
    (mainRun w).calls = [Call.endpointClient] := by
  revert w; decide

/-- Witness for claim C5 at the run whose context construction fails. -/
theorem endpointClientFail_quicError_witness :
    (mainRun ⟨false, true, true, true, true, true⟩).result
      = Except.error ClientError.QuicError ∧
    (mainRun ⟨false, true, true, true, true, true⟩).calls
      = [Call.endpointClient] :=
  endpointClientFail_quicError ⟨false, true, true, true, true, true⟩ rfl

/-- Claim C6: if context construction succeeded but the synchronous
`endpoint.connect` call fails, the reported error kind is `LocallyClosed`
and no later call executes. -/
theorem connectFail_locallyClosed (w : World)
    (he : w.endpointClientOk = true) (hc : w.connectOk = false) :
    (mainRun w).result = Except.error ClientError.LocallyClosed ∧
    (mainRun w).calls = [Call.endpointClient, Call.connect] := by
  revert w; decide

/-- Witness for claim C6 at the run whose connect call fails. -/
theorem connectFail_locallyClosed_witness :
    (mainRun ⟨true, false, true, true, true, true⟩).result
      = Except.error ClientError.LocallyClosed ∧
    (mainRun ⟨true, false, true, true, true, true⟩).calls
      = [Call.endpointClient, Call.connect] :=
  connectFail_locallyClosed ⟨true, false, true, true, true, true⟩ rfl rfl

/-- Claim C7: if connection initiation succeeded but the asynchronous
session-establishment wait fails, the reported error kind is `TimeOut`
and no stream is opened. -/
theorem awaitFail_timeOut (w : World)
    (he : w.endpointClientOk = true) (hc : w.connectOk = true)
    (ha : w.awaitOk = false) :
    (mainRun w).result = Except.error ClientError.TimeOut ∧
    (mainRun w).calls = [Call.endpointClient, Call.connect, Call.awaitConn] ∧
    Call.openBi ∉ (mainRun w).calls := by
  revert w; decide

/-- Witness for claim C7 at the run whose session wait fails. -/
theorem awaitFail_timeOut_witness :
    (mainRun ⟨true, true, false, true, true, true⟩).result
      = Except.error ClientError.TimeOut ∧
    (mainRun ⟨true, true, false, true, true, true⟩).calls
      = [Call.endpointClient, Call.connect, Call.awaitConn] ∧
    Call.openBi ∉ (mainRun ⟨true, true, false, true, true, true⟩).calls :=
  awaitFail_timeOut ⟨true, true, false, true, true, true⟩ rfl rfl rfl

/-- Claim C8: if the session was established but opening the bidirectional
stream fails, the reported error kind is `StreamOpeningError`, no write of
the payload is attempted, and nothing is written. -/
theorem openBiFail_streamOpeningError (w : World)
    (he : w.endpointClientOk = true) (hc : w.connectOk = true)
    (ha : w.awaitOk = true) (ho : w.openBiOk = false) :
    (mainRun w).result = Except.error ClientError.StreamOpeningError ∧
    Call.writeAll ∉ (mainRun w).calls ∧
    (mainRun w).writes = [] := by
  revert w; decide

/-- Witness for claim C8 at the run whose stream opening fails. -/
theorem openBiFail_streamOpeningError_witness :
    (mainRun ⟨true, true, true, false, true, true⟩).result
      = Except.error ClientError.StreamOpeningError ∧
    Call.writeAll ∉ (mainRun ⟨true, true, true, false, true, true⟩).calls ∧
    (mainRun ⟨true, true, true, false, true, true⟩).writes = [] :=
  openBiFail_streamOpeningError ⟨true, true, true, false, true, true⟩
    rfl rfl rfl rfl

/-- Claim C9: the error type is a sum type with exactly the four payload-free
cases `QuicError`, `LocallyClosed`, `TimeOut`, `StreamOpeningError` — it has
exactly four distinct values, every value is one of the four named cases —
and every run either succeeds or returns one of those four kinds. -/
theorem clientError_closed_taxonomy :
    Fintype.card ClientError = 4 ∧
    ([ClientError.QuicError, ClientError.LocallyClosed,
      ClientError.TimeOut, ClientError.StreamOpeningError] : List ClientError).Nodup ∧
    (∀ e : ClientError,
      e = ClientError.QuicError ∨ e = ClientError.LocallyClosed ∨
      e = ClientError.TimeOut ∨ e = ClientError.StreamOpeningError) ∧
    (∀ w : World,
      (mainRun w).result = Except.ok () ∨
      ∃ e : ClientError, (mainRun w).result = Except.error e ∧
        (e = ClientError.QuicError ∨ e = ClientError.LocallyClosed ∨
         e = ClientError.TimeOut ∨ e = ClientError.StreamOpeningError)) := by
  decide

/-- Claim C10: in every run the sequence of attempted steps is a prefix of
[bind, initiate, await, open_stream, write, finish], and every attempted
step other than possibly the last succeeded — so a step is attempted only
if every earlier step succeeded. -/
theorem attempted_steps_prefix_and_guarded :
    ∀ w : World,
      ((mainRun w).attempted.isPrefixOf fullSeq) = true ∧
      ((mainRun w).attempted.dropLast.all (stepOk w)) = true := by
  decide

end PingPong
